import Mathlib

/-!
Verification of the agent-based housing-market core of the
`real_estate_toolkit` repository: the entity model (`House`, `Consumer`,
`HousingMarket`) from `_agent_based_model/` and the simulation driver from
`agent_based_model/simulation.py`, shallowly embedded in Lean.

Python `float` values are modelled as rationals (`ℚ`), Python `int` as `ℤ`,
and Python exceptions as an explicit `Except PyErr` result.
-/

/-- Python runtime errors that the embedded code can raise. -/
inductive PyErr where
  | attributeError
  | typeError
  | zeroDivisionError
deriving DecidableEq, Repr

/-- `QualityScore` enum from `_agent_based_model/houses.py`. -/
inductive QualityScore where
  | EXCELLENT
  | GOOD
  | AVERAGE
  | FAIR
  | POOR
deriving DecidableEq, Repr

/-- The numeric value carried by each `QualityScore` member (5 down to 1). -/
def QualityScore.value : QualityScore → ℤ
  | .EXCELLENT => 5
  | .GOOD => 4
  | .AVERAGE => 3
  | .FAIR => 2
  | .POOR => 1

/-- `House` dataclass from `_agent_based_model/houses.py`. -/
structure House where
  id : ℤ
  price : ℚ
  area : ℚ
  bedrooms : ℤ
  year_built : ℤ
  quality_score : Option QualityScore := none
  available : Bool := true
deriving DecidableEq, Repr

/-- Python `round` to an integer: round half to even (banker's rounding). -/
def pyRoundInt (q : ℚ) : ℤ :=
  let f := ⌊q⌋
  let r := q - (f : ℚ)
  if r < 1/2 then f
  else if 1/2 < r then f + 1
  else if f % 2 = 0 then f else f + 1

/-- Python `round(x, 2)`: round to two decimal places, half to even. -/
def pyRound2 (q : ℚ) : ℚ := (pyRoundInt (q * 100) : ℚ) / 100

/-- `House.calculate_price_per_square_foot`: `price / area` rounded to two
decimals, and `0.0` when `area == 0`. -/
def calculate_price_per_square_foot (h : House) : ℚ :=
  if h.area = 0 then 0 else pyRound2 (h.price / h.area)

/-- `House.is_new_construction(current_year=2024)`: true iff the house is less
than 5 years old. -/
def is_new_construction (h : House) (current_year : ℤ := 2024) : Bool :=
  current_year - h.year_built < 5

/-- `House.get_quality_score` from `_agent_based_model/houses.py` (the variant
with area thresholds 2000/1500 and year thresholds 2000/1980): sets the
`quality_score` field by the first matching rule. -/
def get_quality_score (h : House) : House :=
  if is_new_construction h && decide (h.area ≥ 2000) then
    { h with quality_score := some QualityScore.EXCELLENT }
  else if decide (h.area ≥ 2000) && decide (h.year_built ≥ 2000) then
    { h with quality_score := some QualityScore.GOOD }
  else if decide (h.area ≥ 1500) && decide (h.year_built ≥ 1980) then
    { h with quality_score := some QualityScore.AVERAGE }
  else if decide (h.area < 1500) || decide (h.year_built < 1980) then
    { h with quality_score := some QualityScore.FAIR }
  else
    { h with quality_score := some QualityScore.POOR }

/-- `House.sell_house`: mark the house as sold. -/
def sell_house (h : House) : House := { h with available := false }

/-- A `HousingMarket` is its ordered list of houses (`self.houses`). -/
abbrev HousingMarket : Type := List House

/-- `HousingMarket.get_house_by_id`: first house with the given id, else None. -/
def get_house_by_id (m : HousingMarket) (house_id : ℤ) : Option House :=
  m.find? (fun h => h.id == house_id)

/-- The list `filtered_houses` built inside
`HousingMarket.calculate_average_price`: the available houses, further
restricted to a bedroom count when one is given. -/
def avgFilteredHouses (m : HousingMarket) (bedrooms : Option ℤ) : List House :=
  let fil := m.filter (fun h => h.available)
  match bedrooms with
  | some b => fil.filter (fun h => h.bedrooms == b)
  | none => fil

/-- `HousingMarket.calculate_average_price(bedrooms=None)`: mean price of the
available (and bedroom-matching) houses rounded to 2 decimals, `0.0` when no
house matches. -/
def calculate_average_price (m : HousingMarket) (bedrooms : Option ℤ := none) : ℚ :=
  let fil := avgFilteredHouses m bedrooms
  if fil.isEmpty then 0
  else pyRound2 (((fil.map House.price).sum) / (fil.length : ℚ))

/-- `HousingMarket.get_houses_that_meet_requirements(max_price, segment)`:
available houses priced at or below `max_price`; `segment` is accepted but
unused. -/
def get_houses_that_meet_requirements (m : HousingMarket) (max_price : ℚ)
    (_segment : String) : List House :=
  m.filter (fun h => h.available && decide (h.price ≤ max_price))

/-- `Segment` enum from `_agent_based_model/consumers.py`. -/
inductive Segment where
  | FANCY
  | OPTIMIZER
  | AVERAGE
deriving DecidableEq, Repr

/-- Python `Segment.name`. -/
def Segment.name : Segment → String
  | .FANCY => "FANCY"
  | .OPTIMIZER => "OPTIMIZER"
  | .AVERAGE => "AVERAGE"

/-- `Consumer` dataclass from `_agent_based_model/consumers.py`. -/
structure Consumer where
  id : ℤ
  annual_income : ℚ
  children_number : ℤ
  segment : Segment
  savings : ℚ := 0
  saving_rate : ℚ := 3/10
  interest_rate : ℚ := 1/20
  house : Option House := none
deriving DecidableEq, Repr

/-- `Consumer.compute_savings(years)`: per year, add
`annual_income * saving_rate` to savings, then multiply by
`(1 + interest_rate)`. -/
def compute_savings (c : Consumer) : ℕ → Consumer
  | 0 => c
  | Nat.succ k =>
      compute_savings
        { c with savings :=
            (c.savings + c.annual_income * c.saving_rate) * (1 + c.interest_rate) } k

/-- The predicate of the list comprehension inside
`get_houses_that_meet_requirements`: available and priced at or below the
budget. -/
def affordablePred (max_price : ℚ) (h : House) : Bool :=
  h.available && decide (h.price ≤ max_price)

/-- In Python, `affordable_houses[0]` aliases an object stored in the shared
market list, so `house_to_buy.sell_house()` mutates the market in place.  In
the embedding the market after that mutation is the original house list with
its first element satisfying the predicate replaced by its sold copy. -/
def sellFirstMatching (p : House → Bool) : List House → List House
  | [] => []
  | h :: t => if p h then sell_house h :: t else h :: sellFirstMatching p t

/-- `Consumer.buy_a_house(housing_market)`: no-op when the consumer already
owns a house or no available house is affordable; otherwise the first house
of the affordability filter is sold in place and recorded as owned. -/
def buy_a_house (c : Consumer) (m : HousingMarket) : Consumer × HousingMarket :=
  if c.house.isSome then (c, m)
  else
    let affordable_houses := get_houses_that_meet_requirements m c.savings c.segment.name
    match affordable_houses.head? with
    | none => (c, m)
    | some house_to_buy =>
        ({ c with house := some (sell_house house_to_buy) },
         sellFirstMatching (affordablePred c.savings) m)

/-- `CleaningMarketMechanism` enum from `agent_based_model/simulation.py`. -/
inductive CleaningMarketMechanism where
  | INCOME_ORDER_DESCENDANT
  | INCOME_ORDER_ASCENDANT
  | RANDOM
deriving DecidableEq, Repr

/-- The mutable state of a `Simulation` (`agent_based_model/simulation.py`)
once `create_housing_market` and `create_consumers` have run: the fields the
market-clearing and metric methods read.  The income statistics and children
range are consumed only by the random population generator and are omitted. -/
structure Simulation where
  consumers : List Consumer
  housing_market : HousingMarket
  consumers_number : ℕ
  years : ℕ
  cleaning_market_mechanism : CleaningMarketMechanism
deriving DecidableEq, Repr

/-- The Python expression `Consumer.annual_income` evaluated on the *class*
(as `simulation.py` writes inside its sort key): `annual_income` is a
dataclass field with no default value, so it is not a class attribute and the
lookup raises `AttributeError`. -/
def consumerClassAnnualIncome : Except PyErr ℚ :=
  Except.error PyErr.attributeError

/-- The Python expression `Consumer.house` evaluated on the *class* (as
`simulation.py` writes inside `clean_the_market` and
`compute_owners_population_rate`): `house` is a dataclass field with default
`None`, so the class attribute exists and is `None`. -/
def consumerClassHouse : Option House := none

/-- Python `list.sort(key=..., reverse=...)`: the key is computed for every
element up front (so a raising key raises before any reordering), then a
stable sort by key is performed. -/
def pySortByKey (key : Consumer → Except PyErr ℚ) (reverse : Bool)
    (xs : List Consumer) : Except PyErr (List Consumer) := do
  let decorated ← xs.mapM (fun c => do
    let k ← key c
    pure (k, c))
  let le : ℚ × Consumer → ℚ × Consumer → Bool :=
    fun a b => if reverse then decide (b.1 ≤ a.1) else decide (a.1 ≤ b.1)
  pure ((decorated.mergeSort le).map Prod.snd)

/-- One iteration of the loop in `Simulation.clean_the_market`:
`if not Consumer.house:` reads the class attribute (always `None`, so the
branch is always taken) and then `Consumer.buy_a_house(self.housing_market)`
calls the two-parameter function with a single positional argument (the
market is bound to `self` and `housing_market` is missing), which raises
`TypeError` before the function body runs. -/
def cleanMarketLoopStep (market : HousingMarket) (_c : Consumer) :
    Except PyErr HousingMarket :=
  if consumerClassHouse.isSome then Except.ok market
  else Except.error PyErr.typeError

/-- `Simulation.clean_the_market` as written in `agent_based_model/simulation.py`.
The `RANDOM` branch's `shuffle` is modelled by an oracle permutation
argument. -/
def clean_the_market (shuffleOracle : List Consumer → List Consumer)
    (sim : Simulation) : Except PyErr Simulation := do
  let sorted ← match sim.cleaning_market_mechanism with
    | CleaningMarketMechanism.INCOME_ORDER_DESCENDANT =>
        pySortByKey (fun _c => consumerClassAnnualIncome) true sim.consumers
    | CleaningMarketMechanism.INCOME_ORDER_ASCENDANT =>
        pySortByKey (fun _c => consumerClassAnnualIncome) false sim.consumers
    | CleaningMarketMechanism.RANDOM =>
        pure (shuffleOracle sim.consumers)
  let market ← sorted.foldlM cleanMarketLoopStep sim.housing_market
  pure { sim with consumers := sorted, housing_market := market }

/-- `Simulation.compute_consumers_savings` as written: the loop body calls
`Consumer.compute_savings(self.years)`, passing the year count as `self` and
omitting the required `years` argument, so the first iteration raises
`TypeError`; with an empty consumer list the body never runs. -/
def compute_consumers_savings (sim : Simulation) : Except PyErr Simulation :=
  match sim.consumers with
  | [] => Except.ok sim
  | _ :: _ => Except.error PyErr.typeError

/-- `Simulation.compute_owners_population_rate` as written: the generator
condition is `Consumer.house` (the class attribute, always `None`, hence
always falsy), so the owner count is 0 for every consumer list; the sum is
divided by `self.consumers_number`. -/
def compute_owners_population_rate (sim : Simulation) : Except PyErr ℚ :=
  let owners := (sim.consumers.filter (fun _c => consumerClassHouse.isSome)).length
  if sim.consumers_number = 0 then Except.error PyErr.zeroDivisionError
  else Except.ok ((owners : ℚ) / (sim.consumers_number : ℚ))

/-- `Simulation.compute_houses_availability_rate`: available houses divided by
the total number of houses. -/
def compute_houses_availability_rate (sim : Simulation) : Except PyErr ℚ :=
  let avail := (sim.housing_market.filter (fun h => h.available)).length
  if sim.housing_market.length = 0 then Except.error PyErr.zeroDivisionError
  else Except.ok ((avail : ℚ) / (sim.housing_market.length : ℚ))

/-- The quality tier as a function of area and year of construction alone;
used to characterize `get_quality_score`. -/
def qualityTier (area : ℚ) (year_built : ℤ) : QualityScore :=
  if 2024 - year_built < 5 ∧ area ≥ 2000 then QualityScore.EXCELLENT
  else if area ≥ 2000 ∧ year_built ≥ 2000 then QualityScore.GOOD
  else if area ≥ 1500 ∧ year_built ≥ 1980 then QualityScore.AVERAGE
  else if area < 1500 ∨ year_built < 1980 then QualityScore.FAIR
  else QualityScore.POOR

/-- One period of the savings recurrence: add the contribution
`income * rate`, then apply interest. -/
def savingsStep (income rate interest : ℚ) (s : ℚ) : ℚ :=
  (s + income * rate) * (1 + interest)

/-- Fixture: the single available house of the 1-house, 2-consumer
market-clearing scenario. -/
def houseFx : House :=
  { id := 1, price := 100000, area := 1200, bedrooms := 3, year_built := 1990 }

/-- Fixture: the higher-income consumer; savings cover `houseFx`. -/
def richFx : Consumer :=
  { id := 0, annual_income := 100000, children_number := 1,
    segment := Segment.FANCY, savings := 200000 }

/-- Fixture: the lower-income consumer; savings also cover `houseFx`. -/
def poorFx : Consumer :=
  { id := 1, annual_income := 50000, children_number := 0,
    segment := Segment.AVERAGE, savings := 150000 }

/-- Fixture: the 1-house, 2-consumer simulation under descending-income
clearing. -/
def simDescFx : Simulation :=
  { consumers := [richFx, poorFx], housing_market := [houseFx],
    consumers_number := 2, years := 3,
    cleaning_market_mechanism := CleaningMarketMechanism.INCOME_ORDER_DESCENDANT }

/-- Fixture: the same simulation under ascending-income clearing. -/
def simAscFx : Simulation :=
  { simDescFx with
    cleaning_market_mechanism := CleaningMarketMechanism.INCOME_ORDER_ASCENDANT }

/-- Fixture: a consumer who owns a (sold) house. -/
def ownerFx : Consumer := { richFx with house := some (sell_house houseFx) }

/-- Fixture: a one-consumer simulation in which the consumer owns the single
house, which is sold. -/
def simOwnerFx : Simulation :=
  { consumers := [ownerFx], housing_market := [sell_house houseFx],
    consumers_number := 1, years := 3,
    cleaning_market_mechanism := CleaningMarketMechanism.INCOME_ORDER_DESCENDANT }

/-- Fixture: a market of two houses where only the second is affordable at a
budget of 90000. -/
def marketFx : HousingMarket :=
  [houseFx, { id := 2, price := 80000, area := 900, bedrooms := 2, year_built := 2005 }]

/-- Fixture: the second house of `marketFx`, the one affordable at 90000. -/
def cheapFx : House :=
  { id := 2, price := 80000, area := 900, bedrooms := 2, year_built := 2005 }

/-- Fixture: a house-less consumer with savings 90000. -/
def buyerFx : Consumer :=
  { id := 7, annual_income := 60000, children_number := 2,
    segment := Segment.OPTIMIZER, savings := 90000 }

/-- Fixture: a large, newly built house (Excellent territory). -/
def newLargeFx : House :=
  { id := 3, price := 500000, area := 2500, bedrooms := 5, year_built := 2023 }

/-! ### Helper lemmas -/

/-- `get_houses_that_meet_requirements` is the filter by `affordablePred`. -/
theorem get_houses_eq_filter (m : HousingMarket) (p : ℚ) (s : String) :
    get_houses_that_meet_requirements m p s = m.filter (affordablePred p) := rfl

/-- When the candidate list is non-empty, `buy_a_house` records the sold head
of that list and updates the market through `sellFirstMatching`. -/
theorem buy_a_house_pos (c : Consumer) (m : HousingMarket) (h : House)
    (rest : List House) (hc : c.house = none)
    (hf : get_houses_that_meet_requirements m c.savings c.segment.name = h :: rest) :
    buy_a_house c m =
      ({ c with house := some (sell_house h) },
       sellFirstMatching (affordablePred c.savings) m) := by
  rw [buy_a_house, hc, hf]
  rfl

/-- `get_quality_score` sets `quality_score` to the tier computed by
`qualityTier` from the house's area and construction year, leaving every
other field unchanged. -/
theorem get_quality_score_eq (h : House) :
    get_quality_score h =
      { h with quality_score := some (qualityTier h.area h.year_built) } := by
  simp only [get_quality_score, qualityTier, is_new_construction,
    Bool.and_eq_true, Bool.or_eq_true, decide_eq_true_eq]
  split_ifs <;> rfl

/-- The savings field after `compute_savings` is `k` iterations of the
per-period recurrence on the starting savings. -/
theorem compute_savings_savings (c : Consumer) (k : ℕ) :
    (compute_savings c k).savings =
      (savingsStep c.annual_income c.saving_rate c.interest_rate)^[k] c.savings := by
  induction k generalizing c with
  | zero => rfl
  | succ k ih =>
      rw [compute_savings, ih, Function.iterate_succ_apply]
      rfl

/-- When the filter of a list is `h :: rest`, the list has a first matching
position `i` holding `h`, everything before `i` fails the predicate, and
`sellFirstMatching` is exactly the update of position `i` to the sold copy. -/
theorem sellFirstMatching_spec (p : House → Bool) (m : List House)
    (h : House) (rest : List House) (hf : m.filter p = h :: rest) :
    ∃ i, i < m.length ∧ m.get? i = some h ∧
      (∀ j, j < i → ∀ g, m.get? j = some g → p g = false) ∧
      sellFirstMatching p m = m.set i (sell_house h) := by
  induction m generalizing h rest with
  | nil => simp at hf
  | cons a t ih =>
      rw [List.filter_cons] at hf
      by_cases hp : p a
      · rw [if_pos hp] at hf
        obtain ⟨rfl, -⟩ : a = h ∧ t.filter p = rest := by
          simpa using hf
        refine ⟨0, by simp, rfl, ?_, ?_⟩
        · intro j hj
          omega
        · simp [sellFirstMatching, hp]
      · rw [if_neg hp] at hf
        obtain ⟨i, hi, hget, hmin, heq⟩ := ih h rest hf
        refine ⟨i + 1, by simpa using hi, hget, ?_, ?_⟩
        · intro j hj g hg
          match j with
          | 0 =>
              simp only [List.get?] at hg
              cases hg
              simpa using hp
          | Nat.succ j' =>
              exact hmin j' (by omega) g hg
        · simp [sellFirstMatching, hp, heq]

/-! ### Claim theorems -/

/-- C5: `get_houses_that_meet_requirements` returns exactly the houses that
are available and priced at or below `max_price`, preserves the market's
insertion order (its result is a sublist of the market), and is independent
of the `segment` argument. -/
theorem get_houses_that_meet_requirements_spec (m : HousingMarket) (p : ℚ)
    (s t : String) :
    (∀ h : House, h ∈ get_houses_that_meet_requirements m p s ↔
        h ∈ m ∧ h.available = true ∧ h.price ≤ p) ∧
    (get_houses_that_meet_requirements m p s).Sublist m ∧
    get_houses_that_meet_requirements m p s =
      get_houses_that_meet_requirements m p t := by
  refine ⟨?_, ?_, rfl⟩
  · intro h
    simp [get_houses_that_meet_requirements, List.mem_filter, and_assoc]
  · exact List.filter_sublist m

/-- C6: `calculate_average_price` averages exactly the available houses
matching the optional bedroom filter, returns `0` when no house matches, and
in the non-empty case divides by a nonzero count. -/
theorem calculate_average_price_spec (m : HousingMarket) (b : Option ℤ) :
    (∀ h : House, h ∈ avgFilteredHouses m b ↔
        h ∈ m ∧ h.available = true ∧ ∀ k, b = some k → h.bedrooms = k) ∧
    (avgFilteredHouses m b = [] → calculate_average_price m b = 0) ∧
    (avgFilteredHouses m b ≠ [] →
        ((avgFilteredHouses m b).length : ℚ) ≠ 0 ∧
        calculate_average_price m b =
          pyRound2 (((avgFilteredHouses m b).map House.price).sum /
            ((avgFilteredHouses m b).length : ℚ))) := by
  refine ⟨?_, ?_, ?_⟩
  · intro h
    cases b with
    | none => simp [avgFilteredHouses, List.mem_filter]
    | some k0 =>
        simp only [avgFilteredHouses, List.mem_filter, beq_iff_eq,
          Option.some.injEq]
        constructor
        · rintro ⟨⟨hm, hav⟩, hbed⟩
          exact ⟨hm, hav, fun k hk => hk ▸ hbed⟩
        · rintro ⟨hm, hav, hbed⟩
          exact ⟨⟨hm, hav⟩, hbed k0 rfl⟩
  · intro hempty
    simp [calculate_average_price, hempty]
  · intro hne
    refine ⟨?_, ?_⟩
    · exact_mod_cast List.length_pos.mpr hne |>.ne'
    · simp [calculate_average_price, List.isEmpty_iff, hne]

/-- C7: a sold house is excluded from every candidate list and from the list
averaged by `calculate_average_price`, and selling twice equals selling
once. -/
theorem sell_house_spec (h : House) :
    sell_house (sell_house h) = sell_house h ∧
    (∀ (m : HousingMarket) (p : ℚ) (s : String),
        sell_house h ∉ get_houses_that_meet_requirements m p s) ∧
    (∀ (m : HousingMarket) (b : Option ℤ),
        sell_house h ∉ avgFilteredHouses m b) := by
  refine ⟨rfl, ?_, ?_⟩
  · intro m p s hmem
    rw [get_houses_that_meet_requirements] at hmem
    have := (List.mem_filter.mp hmem).2
    simp [sell_house] at this
  · intro m b hmem
    cases b with
    | none =>
        have := (List.mem_filter.mp hmem).2
        simp [sell_house] at this
    | some k =>
        have := (List.mem_filter.mp ((List.mem_filter.mp hmem).1)).2
        simp [sell_house] at this

/-- C8: the assigned quality tier is a pure function of area and construction
year (hence of area, year and the derived new-construction flag), the
assignment is idempotent, and the rules apply first-match-first: a new large
house is Excellent, a non-new large modern house is Good, an otherwise
mid-size post-1980 house is Average, and a house failing the first three
rules that is small or pre-1980 is Fair. -/
theorem get_quality_score_spec :
    (∀ h1 h2 : House, h1.area = h2.area → h1.year_built = h2.year_built →
        (get_quality_score h1).quality_score = (get_quality_score h2).quality_score) ∧
    (∀ h : House, get_quality_score (get_quality_score h) = get_quality_score h) ∧
    (∀ h : House, is_new_construction h = true → h.area ≥ 2000 →
        (get_quality_score h).quality_score = some QualityScore.EXCELLENT) ∧
    (∀ h : House, is_new_construction h = false → h.area ≥ 2000 →
        h.year_built ≥ 2000 →
        (get_quality_score h).quality_score = some QualityScore.GOOD) ∧
    (∀ h : House, is_new_construction h = false →
        ¬(h.area ≥ 2000 ∧ h.year_built ≥ 2000) →
        h.area ≥ 1500 → h.year_built ≥ 1980 →
        (get_quality_score h).quality_score = some QualityScore.AVERAGE) ∧
    (∀ h : House, ¬(is_new_construction h = true ∧ h.area ≥ 2000) →
        ¬(h.area ≥ 2000 ∧ h.year_built ≥ 2000) →
        ¬(h.area ≥ 1500 ∧ h.year_built ≥ 1980) →
        (h.area < 1500 ∨ h.year_built < 1980) →
        (get_quality_score h).quality_score = some QualityScore.FAIR) := by
  have hnew : ∀ h : House, is_new_construction h = true ↔ 2024 - h.year_built < 5 := by
    intro h
    simp [is_new_construction]
  refine ⟨?_, ?_, ?_, ?_, ?_, ?_⟩
  · intro h1 h2 hA hY
    rw [get_quality_score_eq, get_quality_score_eq, hA, hY]
  · intro h
    rw [get_quality_score_eq h, get_quality_score_eq]
  · intro h hn ha
    rw [get_quality_score_eq]
    simp only [qualityTier]
    rw [if_pos ⟨(hnew h).mp hn, ha⟩]
  · intro h hn ha hy
    rw [get_quality_score_eq]
    simp only [qualityTier]
    rw [if_neg, if_pos ⟨ha, hy⟩]
    intro hc
    exact absurd ((hnew h).mpr hc.1) (by simp [hn])
  · intro h hn hng ha hy
    rw [get_quality_score_eq]
    simp only [qualityTier]
    rw [if_neg, if_neg hng, if_pos ⟨ha, hy⟩]
    intro hc
    exact absurd ((hnew h).mpr hc.1) (by simp [hn])
  · intro h h1 h2 h3 h4
    rw [get_quality_score_eq]
    simp only [qualityTier]
    rw [if_neg, if_neg h2, if_neg h3, if_pos h4]
    intro hc
    exact h1 ⟨(hnew h).mpr hc.1, hc.2⟩

/-- C9: with area thresholds 2000/1500 and year thresholds 2000/1980, the
`Poor` tier is unreachable: the Fair rule and the Average rule together cover
everything the earlier rules miss. -/
theorem get_quality_score_never_poor (h : House) :
    (get_quality_score h).quality_score ≠ some QualityScore.POOR := by
  rw [get_quality_score_eq]
  show some (qualityTier h.area h.year_built) ≠ some QualityScore.POOR
  simp only [qualityTier]
  split_ifs with h1 h2 h3 h4
  · simp
  · simp
  · simp
  · simp
  · exfalso
    rcases not_or.mp h4 with ⟨ha, hy⟩
    exact h3 ⟨not_lt.mp ha, not_lt.mp hy⟩

/-- C4: `buy_a_house` is a no-op when the consumer already owns a house or
when no available house is affordable; otherwise it takes the head of the
affordability filter — the house at the first market position satisfying the
affordability predicate, not the cheapest — marks that market position sold,
and records the sold house as owned. -/
theorem buy_a_house_spec (c : Consumer) (m : HousingMarket) :
    (c.house.isSome = true → buy_a_house c m = (c, m)) ∧
    (get_houses_that_meet_requirements m c.savings c.segment.name = [] →
        buy_a_house c m = (c, m)) ∧
    (∀ (h : House) (rest : List House), c.house = none →
        get_houses_that_meet_requirements m c.savings c.segment.name = h :: rest →
        ∃ i, i < m.length ∧ m.get? i = some h ∧
          (∀ j, j < i → ∀ g, m.get? j = some g →
              affordablePred c.savings g = false) ∧
          buy_a_house c m =
            ({ c with house := some (sell_house h) }, m.set i (sell_house h))) := by
  refine ⟨?_, ?_, ?_⟩
  · intro hs
    rw [buy_a_house, if_pos hs]
  · intro hf
    by_cases hs : c.house.isSome = true
    · rw [buy_a_house, if_pos hs]
    · rw [buy_a_house, if_neg hs, hf]
      rfl
  · intro h rest hc hf
    have hfil : m.filter (affordablePred c.savings) = h :: rest := by
      rw [← get_houses_eq_filter m c.savings c.segment.name]
      exact hf
    obtain ⟨i, hi, hget, hmin, heq⟩ :=
      sellFirstMatching_spec (affordablePred c.savings) m h rest hfil
    exact ⟨i, hi, hget, hmin, by rw [buy_a_house_pos c m h rest hc hf, heq]⟩

/-- C4 witness: a concrete purchase in a two-house market where only the
second house is affordable. -/
theorem buy_a_house_spec_witness :
    ∃ i, i < marketFx.length ∧ marketFx.get? i = some cheapFx ∧
      (∀ j, j < i → ∀ g, marketFx.get? j = some g →
          affordablePred buyerFx.savings g = false) ∧
      buy_a_house buyerFx marketFx =
        ({ buyerFx with house := some (sell_house cheapFx) },
         marketFx.set i (sell_house cheapFx)) :=
  (buy_a_house_spec buyerFx marketFx).2.2 cheapFx [] rfl (by decide)

/-- C10: a successful purchase leaves every consumer field except the owned
house unchanged (in particular savings are not reduced by the price), changes
the bought house only in its availability flag, and leaves every other market
position untouched. -/
theorem buy_a_house_frame (c : Consumer) (m : HousingMarket) (h : House)
    (rest : List House) (hc : c.house = none)
    (hf : get_houses_that_meet_requirements m c.savings c.segment.name = h :: rest) :
    ((buy_a_house c m).1.id = c.id ∧
     (buy_a_house c m).1.annual_income = c.annual_income ∧
     (buy_a_house c m).1.children_number = c.children_number ∧
     (buy_a_house c m).1.segment = c.segment ∧
     (buy_a_house c m).1.savings = c.savings ∧
     (buy_a_house c m).1.saving_rate = c.saving_rate ∧
     (buy_a_house c m).1.interest_rate = c.interest_rate) ∧
    (buy_a_house c m).1.house = some { h with available := false } ∧
    (buy_a_house c m).2.length = m.length ∧
    ∃ i, i < m.length ∧ m.get? i = some h ∧
      (buy_a_house c m).2.get? i = some { h with available := false } ∧
      ∀ j, j ≠ i → (buy_a_house c m).2.get? j = m.get? j := by
  have hfil : m.filter (affordablePred c.savings) = h :: rest := by
    rw [← get_houses_eq_filter m c.savings c.segment.name]
    exact hf
  obtain ⟨i, hi, hget, hmin, heq⟩ :=
    sellFirstMatching_spec (affordablePred c.savings) m h rest hfil
  have hbuy := buy_a_house_pos c m h rest hc hf
  rw [hbuy, heq]
  refine ⟨⟨rfl, rfl, rfl, rfl, rfl, rfl, rfl⟩, rfl, List.length_set .., ?_⟩
  refine ⟨i, hi, hget, ?_, ?_⟩
  · exact List.get?_set_eq_of_lt (sell_house h) (by simpa using hi)
  · intro j hj
    exact List.get?_set_ne (sell_house h) m (Ne.symm hj)

/-- C10 witness: the concrete purchase of `buy_a_house_spec_witness`, checked
for its frame conditions. -/
theorem buy_a_house_frame_witness :
    (((buy_a_house buyerFx marketFx).1.id = buyerFx.id ∧
      (buy_a_house buyerFx marketFx).1.annual_income = buyerFx.annual_income ∧
      (buy_a_house buyerFx marketFx).1.children_number = buyerFx.children_number ∧
      (buy_a_house buyerFx marketFx).1.segment = buyerFx.segment ∧
      (buy_a_house buyerFx marketFx).1.savings = buyerFx.savings ∧
      (buy_a_house buyerFx marketFx).1.saving_rate = buyerFx.saving_rate ∧
      (buy_a_house buyerFx marketFx).1.interest_rate = buyerFx.interest_rate) ∧
     (buy_a_house buyerFx marketFx).1.house = some { cheapFx with available := false } ∧
     (buy_a_house buyerFx marketFx).2.length = marketFx.length ∧
     ∃ i, i < marketFx.length ∧ marketFx.get? i = some cheapFx ∧
       (buy_a_house buyerFx marketFx).2.get? i =
         some { cheapFx with available := false } ∧
       ∀ j, j ≠ i → (buy_a_house buyerFx marketFx).2.get? j = marketFx.get? j) :=
  buy_a_house_frame buyerFx marketFx cheapFx [] rfl (by decide)

/-- C2: the per-consumer savings method realizes exactly `k` iterations of
the recurrence `S <- (S + income * saving_rate) * (1 + interest_rate)`, but
the accrue-all-savings stage as written in `simulation.py` raises `TypeError`
on any non-empty consumer population (it calls `compute_savings` on the class
with the year count as `self`), so the stage never applies the recurrence. -/
theorem compute_consumers_savings_spec :
    (∀ (c : Consumer) (k : ℕ),
        (compute_savings c k).savings =
          (savingsStep c.annual_income c.saving_rate c.interest_rate)^[k] c.savings) ∧
    compute_consumers_savings simDescFx = Except.error PyErr.typeError :=
  ⟨compute_savings_savings, rfl⟩

/-- C1: on the 1-house, 2-consumer fixture in which both consumers can afford
the single available house, `clean_the_market` as written raises
`AttributeError` under both income orderings (its sort key reads
`annual_income` off the `Consumer` class, where no such attribute exists), so
neither mechanism awards the house to anyone. -/
theorem clean_the_market_code_bug :
    houseFx.available = true ∧
    houseFx.price ≤ richFx.savings ∧
    houseFx.price ≤ poorFx.savings ∧
    poorFx.annual_income < richFx.annual_income ∧
    simDescFx.housing_market = [houseFx] ∧
    simDescFx.consumers = [richFx, poorFx] ∧
    simAscFx.consumers = [richFx, poorFx] ∧
    clean_the_market id simDescFx = Except.error PyErr.attributeError ∧
    clean_the_market id simAscFx = Except.error PyErr.attributeError :=
  ⟨rfl, by decide, by decide, by decide, rfl, rfl, rfl, rfl, rfl⟩

/-- C3: on a fixture whose single consumer owns a house (and whose single
house is sold), the ownership-rate method as written returns 0 instead of 1
(its generator tests `Consumer.house`, the class attribute `None`, instead of
each consumer's own field); the availability-rate method correctly returns
0 of 1 houses available. -/
theorem compute_owners_population_rate_code_bug :
    simOwnerFx.consumers = [ownerFx] ∧
    ownerFx.house.isSome = true ∧
    simOwnerFx.consumers_number = 1 ∧
    compute_owners_population_rate simOwnerFx = Except.ok 0 ∧
    compute_houses_availability_rate simOwnerFx = Except.ok 0 := by
  refine ⟨rfl, rfl, rfl, ?_, ?_⟩
  · norm_num [compute_owners_population_rate, simOwnerFx, consumerClassHouse]
  · norm_num [compute_houses_availability_rate, simOwnerFx, sell_house, houseFx]

/-- C5 witness: the characterization at a concrete market, budget and pair of
segment strings. -/
theorem get_houses_that_meet_requirements_spec_witness :
    (cheapFx ∈ get_houses_that_meet_requirements marketFx 90000 "FANCY" ↔
        cheapFx ∈ marketFx ∧ cheapFx.available = true ∧ cheapFx.price ≤ 90000) ∧
    (get_houses_that_meet_requirements marketFx 90000 "FANCY").Sublist marketFx ∧
    get_houses_that_meet_requirements marketFx 90000 "FANCY" =
      get_houses_that_meet_requirements marketFx 90000 "AVERAGE" := by
  obtain ⟨h1, h2, h3⟩ :=
    get_houses_that_meet_requirements_spec marketFx 90000 "FANCY" "AVERAGE"
  exact ⟨h1 cheapFx, h2, h3⟩

/-- C6 witness: a market of one sold house averages to 0, and a market with a
matching house has a nonzero divisor. -/
theorem calculate_average_price_spec_witness :
    calculate_average_price [sell_house houseFx] none = 0 ∧
    ((avgFilteredHouses marketFx none).length : ℚ) ≠ 0 :=
  ⟨(calculate_average_price_spec [sell_house houseFx] none).2.1 rfl,
   ((calculate_average_price_spec marketFx none).2.2 (by decide)).1⟩

/-- C7 witness: the sold copy of a concrete house is excluded from concrete
candidate and averaging lists, and a second sale changes nothing. -/
theorem sell_house_spec_witness :
    sell_house (sell_house houseFx) = sell_house houseFx ∧
    sell_house houseFx ∉ get_houses_that_meet_requirements marketFx 200000 "FANCY" ∧
    sell_house houseFx ∉ avgFilteredHouses marketFx none :=
  ⟨(sell_house_spec houseFx).1,
   (sell_house_spec houseFx).2.1 marketFx 200000 "FANCY",
   (sell_house_spec houseFx).2.2 marketFx none⟩

/-- C8 witness: a new large house is rated Excellent and an old small house
Fair, through the claim theorem at concrete inputs. -/
theorem get_quality_score_spec_witness :
    (get_quality_score newLargeFx).quality_score = some QualityScore.EXCELLENT ∧
    (get_quality_score houseFx).quality_score = some QualityScore.FAIR :=
  ⟨get_quality_score_spec.2.2.1 newLargeFx (by decide) (by decide),
   get_quality_score_spec.2.2.2.2.2 houseFx (by decide) (by decide)
     (by decide) (by decide)⟩

/-- C9 witness: the never-Poor theorem at a concrete house. -/
theorem get_quality_score_never_poor_witness :
    (get_quality_score houseFx).quality_score ≠ some QualityScore.POOR :=
  get_quality_score_never_poor houseFx
